import Mathlib

/-!
# Verification of the `VehicleDataRecorder` pipeline

A shallow embedding of `src/services/VehicleDataRecorder.ts`: the recorder's
state machine, its bounded raw-frame / snapshot buffers, frame normalization,
trace-file (TRC) serialization, and the finalize/export sequence.

Modelling conventions:
* JavaScript strings are `String`, restricted to the ASCII data the recorder
  produces; `padStart` / `padEnd` / `toUpperCase` are embedded directly.
* JS numbers appearing as milliseconds, identifiers and data bytes are
  modelled as `Nat` (the data model declares time offsets non-negative and
  the formatting paths only meet integers).
* Timer handles (`setInterval` / `setTimeout`) become booleans recording
  whether the sampler / inactivity watchdog is currently armed; a timer
  callback becomes an explicit operation on the state.
* The listener set becomes a counter of `notify()` calls: one `notify()`
  invokes every registered listener, so "listeners were invoked" is
  "the counter increased".
* Ambient effects are parameters: the sampler tick receives the snapshot
  built from the current decoded state, `finalize` receives the wall-clock
  stamp string and the outcome of the I/O sequence.
-/

set_option autoImplicit false

namespace VehicleDataRecorder

/-! ## JavaScript string primitives -/

/-- JS `String.prototype.padStart(n, c)`: left-pad to length `n`. -/
def jsPadStart (s : String) (n : Nat) (c : Char) : String :=
  String.mk (List.replicate (n - s.length) c) ++ s

/-- JS `String.prototype.padEnd(n, c)`: right-pad to length `n`. -/
def jsPadEnd (s : String) (n : Nat) (c : Char) : String :=
  s ++ String.mk (List.replicate (n - s.length) c)

/-- JS `String.prototype.toUpperCase()` on the ASCII strings this code handles. -/
def jsToUpper (s : String) : String :=
  String.mk (s.data.map Char.toUpper)

/-- Digit character for a value `< 16`: `0`-`9` then uppercase `A`-`F`,
matching JS `Number.prototype.toString(16).toUpperCase()` digit by digit. -/
def digitChar (d : Nat) : Char :=
  if d < 10 then Char.ofNat (48 + d) else Char.ofNat (55 + d)

/-- Digits of `n` in base 16 (most significant first), prepended to `acc`;
structural fuel recursion so that terms compute by `rfl` / `decide`. -/
def toHexCoreAux : Nat → Nat → List Char → List Char
  | 0, _, acc => acc
  | fuel + 1, n, acc =>
    if n < 16 then digitChar n :: acc
    else toHexCoreAux fuel (n / 16) (digitChar (n % 16) :: acc)

/-- Digit list of `n` in base 16, most significant first. -/
def toHexCore (n : Nat) : List Char :=
  toHexCoreAux (n + 1) n []

/-- JS `n.toString(16).toUpperCase()` for a non-negative integer `n`. -/
def toHexUpper (n : Nat) : String :=
  String.mk (toHexCore n)

/-- Digits of `n` in base 10 (most significant first), prepended to `acc`. -/
def toDecCoreAux : Nat → Nat → List Char → List Char
  | 0, _, acc => acc
  | fuel + 1, n, acc =>
    if n < 10 then digitChar n :: acc
    else toDecCoreAux fuel (n / 10) (digitChar (n % 10) :: acc)

/-- Digit list of `n` in base 10, most significant first. -/
def toDecCore (n : Nat) : List Char :=
  toDecCoreAux (n + 1) n []

/-- JS `String(n)` for a non-negative integer `n`. -/
def decStr (n : Nat) : String :=
  String.mk (toDecCore n)

/-- Is `c` one of `0`-`9`, `A`-`F`? -/
def isUpperHexChar (c : Char) : Bool :=
  (48 ≤ c.toNat ∧ c.toNat ≤ 57) ∨ (65 ≤ c.toNat ∧ c.toNat ≤ 70)

/-- Is `s` exactly two uppercase hex characters? -/
def isTwoCharUpperHex (s : String) : Bool :=
  s.length = 2 ∧ s.data.all isUpperHexChar

/-! ## Data model (from the TS type declarations) -/

/-- Status enumeration `RecorderStatus` from the source. -/
inductive RecorderStatus
  | idle
  | arming
  | recording
  | finalizing
  | ready
  | error
deriving DecidableEq, Repr

/-- A normalized `RawFrame` as stored in the buffer. The TS type has every
field optional; `normalizeRawFrame` always fills all four. -/
structure RawFrame where
  timeOffsetMs : Option Nat
  id : Option String
  bytes : Option (List String)
  type : Option String
deriving DecidableEq, Repr

/-- The `id` field of an incoming (pre-normalization) frame: a JS value that
is a number, a string, or something else (`undefined`, `null`, ...). -/
inductive JsIdVal
  | num (n : Nat)
  | str (s : String)
  | other
deriving DecidableEq, Repr

/-- One entry of the incoming `bytes` array: number, string, or other. -/
inductive JsByteVal
  | num (n : Nat)
  | str (s : String)
  | other
deriving DecidableEq, Repr

/-- An incoming (truthy) raw-frame object. `timeOffsetMs = some n` models a
field of JS type `number`, `none` models any non-number; likewise `bytes`
(`some` iff `Array.isArray`) and `type` (`some` iff `typeof === "string"`). -/
structure FrameIn where
  timeOffsetMs : Option Nat
  id : JsIdVal
  bytes : Option (List JsByteVal)
  type : Option String
deriving DecidableEq, Repr

/-- A `number | string` field of a snapshot. -/
inductive NumOrStr
  | num (n : Int)
  | str (s : String)
deriving DecidableEq, Repr

/-- Structure `Snapshot` from the source: one sampled reading of decoded signals. -/
structure Snapshot where
  timestamp : String
  soc : NumOrStr
  batteryCurrent : NumOrStr
  minCellVoltage : NumOrStr
  maxCellVoltage : NumOrStr
  maxCellTemp : NumOrStr
  minCellTemp : NumOrStr
  availableEnergy : NumOrStr
  driveCurrentLimit : NumOrStr
  regenCurrentLimit : NumOrStr
  controllerTemperature : NumOrStr
  motorTemperature : NumOrStr
  rmsCurrent : NumOrStr
  throttle : NumOrStr
  brake : NumOrStr
  speed : NumOrStr
  motorRPM : NumOrStr
  capacitorVoltage : NumOrStr
  odometer : NumOrStr
  controllerFaults : String
deriving DecidableEq, Repr

/-- Constant `MAX_RAW_FRAMES` from the source. -/
def MAX_RAW_FRAMES : Nat := 500000

/-- Constant `MAX_SNAPSHOTS` from the source. -/
def MAX_SNAPSHOTS : Nat := 100000

/-! ## Frame normalization (`normalizeRawFrame`) -/

/-- One entry of `frame.bytes.map(...)` inside `normalizeRawFrame`:
numbers via `toString(16).toUpperCase().padStart(2, "0")`, strings via
`toUpperCase().padStart(2, "0")`, anything else becomes `"00"`. -/
def normalizeByte : JsByteVal → String
  | .num n => jsPadStart (toHexUpper n) 2 '0'
  | .str s => jsPadStart (jsToUpper s) 2 '0'
  | .other => "00"

/-- Body of `normalizeRawFrame` on a truthy frame object. -/
def normFrame (f : FrameIn) : RawFrame where
  timeOffsetMs := some (f.timeOffsetMs.getD 0)
  type := some (f.type.getD "Rx")
  id := some (match f.id with
    | .num n => toHexUpper n
    | .str s => s
    | .other => "00000000")
  bytes := some (match f.bytes with
    | some bs => bs.map normalizeByte
    | none => [])

/-- Function `normalizeRawFrame`: `null` for a falsy argument, otherwise the
normalized frame. -/
def normalizeRawFrame : Option FrameIn → Option RawFrame
  | none => none
  | some f => some (normFrame f)

/-! ## TRC trace-file serialization (`generateTRC`) -/

/-- JS `t.toFixed(3)` where `t = ms / 1000` and `ms` is a non-negative
integer number of milliseconds: integral seconds, a dot, then the
millisecond remainder as three zero-padded digits. -/
def fixed3 (ms : Nat) : String :=
  decStr (ms / 1000) ++ "." ++ jsPadStart (decStr (ms % 1000)) 3 '0'

/-- One data line of the trace file (`frames.map((f, i) => ...)` body):
sequence number right-padded to 5, `toFixed(3)` seconds left-padded to 8,
type left-padded to 3, identifier uppercased and zero-left-padded to 8,
byte count left-padded to 2, space-joined bytes right-padded to 23. -/
def trcLine (i : Nat) (f : RawFrame) : String :=
  let msgNum := jsPadEnd (decStr (i + 1) ++ ")") 5 ' '
  let timestamp := jsPadStart (fixed3 (f.timeOffsetMs.getD 0)) 8 ' '
  let frameType := jsPadStart (match f.type with
    | some s => if s = "" then "Rx" else s
    | none => "Rx") 3 ' '
  let canId := jsPadStart (jsToUpper (match f.id with
    | some s => s
    | none => "")) 8 '0'
  let dlc := jsPadStart (decStr ((f.bytes.getD []).length)) 2 ' '
  let data := jsPadEnd (String.intercalate " " (f.bytes.getD [])) 23 ' '
  msgNum ++ timestamp ++ " " ++ frameType ++ "  " ++ canId ++ " " ++ dlc ++ " " ++ data

/-- The two-line descriptive header of the trace file (the third joined
element is the empty string, giving the blank separator line). -/
def trcHeader : String :=
  String.intercalate "\n"
    ["; Generated by React Native CAN Logger",
     "; Message Number | Time Offset (s) | Type | CAN ID (hex) | DLC | Data Bytes (hex)",
     ""]

/-- Function `generateTRC`: header, then one `trcLine` per frame in order. -/
def generateTRC (frames : List RawFrame) : String :=
  trcHeader ++ "\n" ++ String.intercalate "\n" (frames.mapIdx trcLine)

/-! ## Recorder state -/

/-- The mutable fields of the `VehicleDataRecorder` singleton. Timer handles
are modelled as booleans (`samplerOn` iff `samplerTimer !== null`,
`watchdogOn` iff `inactivityTimer` is pending), and the listener set as the
count of `notify()` calls made so far. -/
structure RecorderState where
  status : RecorderStatus
  rawFrames : List RawFrame
  snapshots : List Snapshot
  framesSeen : Nat
  samplerOn : Bool
  watchdogOn : Bool
  lastFolderPath : Option String
  lastCsvPath : Option String
  lastTrcPath : Option String
  lastZipPath : Option String
  notifyCount : Nat
deriving DecidableEq, Repr

/-- The recorder's initial (constructed) state. -/
def initState : RecorderState where
  status := .idle
  rawFrames := []
  snapshots := []
  framesSeen := 0
  samplerOn := false
  watchdogOn := false
  lastFolderPath := none
  lastCsvPath := none
  lastTrcPath := none
  lastZipPath := none
  notifyCount := 0

/-- Method `getStats()`: the pair of buffer lengths (frames, rows). -/
def getStats (s : RecorderState) : Nat × Nat :=
  (s.rawFrames.length, s.snapshots.length)

/-- Method `notify()`: invoke every registered listener (modelled as bumping the
call counter). -/
def notifyS (s : RecorderState) : RecorderState :=
  { s with notifyCount := s.notifyCount + 1 }

/-- The guarded push in `onRawFrame`: append only below `MAX_RAW_FRAMES`. -/
def pushRaw (s : RecorderState) (nf : RawFrame) : RecorderState :=
  if s.rawFrames.length < MAX_RAW_FRAMES then
    { s with rawFrames := s.rawFrames ++ [nf] }
  else s

/-- Method `startSampler()`: idempotent start of the 1-second interval timer. -/
def startSampler (s : RecorderState) : RecorderState :=
  { s with samplerOn := true }

/-- Method `stopSampler()`: clear the interval timer. -/
def stopSampler (s : RecorderState) : RecorderState :=
  { s with samplerOn := false }

/-- Method `armInactivityTimeout()`: cancel any pending watchdog and arm a fresh
2-second single-shot timer. -/
def armInactivityTimeout (s : RecorderState) : RecorderState :=
  { s with watchdogOn := true }

/-- Method `onRawFrame(frame)`: normalize (bail out on a falsy frame), push below
the cap, count the frame, and drive the idle → arming → recording machine. -/
def onRawFrame (s : RecorderState) (frame : Option FrameIn) : RecorderState :=
  match normalizeRawFrame frame with
  | none => s
  | some nf =>
    let s1 := pushRaw s nf
    let s2 := { s1 with framesSeen := s1.framesSeen + 1 }
    if s2.status = .idle then
      notifyS { armInactivityTimeout (startSampler s2) with status := .arming }
    else if s2.status = .arming ∧ 2 ≤ s2.framesSeen then
      notifyS { armInactivityTimeout (startSampler s2) with status := .recording }
    else if s2.status = .recording then
      armInactivityTimeout s2
    else s2

/-- One firing of the sampler interval: build a snapshot from the current
decoded state (passed in as `snap`) and append it when under the cap,
notifying; a tick only happens while the interval timer is running. -/
def samplerTick (s : RecorderState) (snap : Snapshot) : RecorderState :=
  if s.samplerOn then
    if s.snapshots.length < MAX_SNAPSHOTS then
      notifyS { s with snapshots := s.snapshots ++ [snap] }
    else s
  else s

/-- Method `reset()`: stop timers, clear buffers, counters and paths, go `idle`. -/
def reset (s : RecorderState) : RecorderState :=
  notifyS { s with
    samplerOn := false
    watchdogOn := false
    status := .idle
    rawFrames := []
    snapshots := []
    framesSeen := 0
    lastFolderPath := none
    lastCsvPath := none
    lastTrcPath := none
    lastZipPath := none }

/-! ## Finalize (export sequence) -/

/-- Model of `RNFS.CachesDirectoryPath`, an ambient platform constant. -/
def CachesDirectoryPath : String := "/data/Caches"

/-- The `stamp.replace(/[/:, ]/g, "-")` sanitisation of the locale stamp. -/
def sanitizeStamp (s : String) : String :=
  String.mk (s.data.map (fun c => if c = '/' ∨ c = ':' ∨ c = ',' ∨ c = ' ' then '-' else c))

/-- Outcome of the awaited I/O sequence inside `finalize`: every step
succeeds, or the first failing step (`mkdir`, CSV write, TRC write, zip). -/
inductive IoResult
  | ok
  | failMkdir
  | failCsv
  | failTrc
  | failZip
deriving DecidableEq, Repr

/-- How a `finalize()` call returned to its caller: the idempotent-guard
no-op, the benign empty-buffers return, a successful export, or a rejected
promise (the caught-and-rethrown error). -/
inductive FinalizeResult
  | noop
  | emptyNoFiles
  | readyOk
  | rejected
deriving DecidableEq, Repr

/-- Method `finalize()`. `rawStamp` is the ambient locale timestamp, `fate` the outcome
of the I/O sequence. Returns the new state, how the promise settled, and
the list of filesystem paths actually created (folder, files, archive). -/
def finalize (s : RecorderState) (rawStamp : String) (fate : IoResult) :
    RecorderState × FinalizeResult × List String :=
  if s.status = .finalizing then (s, .noop, [])
  else
    let s1 := stopSampler (notifyS { s with status := .finalizing })
    if s1.snapshots = [] ∨ s1.rawFrames = [] then
      (notifyS { s1 with status := .idle }, .emptyNoFiles, [])
    else
      let stamp := sanitizeStamp rawStamp
      let folder := CachesDirectoryPath ++ "/export_" ++ stamp
      let csv := folder ++ "/data.csv"
      let trc := folder ++ "/data.trc"
      let zipOut := CachesDirectoryPath ++ "/export_" ++ stamp ++ ".zip"
      match fate with
      | .failMkdir => (notifyS { s1 with status := .error }, .rejected, [])
      | .failCsv => (notifyS { s1 with status := .error }, .rejected, [folder])
      | .failTrc => (notifyS { s1 with status := .error }, .rejected, [folder, csv])
      | .failZip => (notifyS { s1 with status := .error }, .rejected, [folder, csv, trc])
      | .ok =>
        (notifyS { s1 with
          status := .ready
          lastFolderPath := some folder
          lastCsvPath := some csv
          lastTrcPath := some trc
          lastZipPath := some zipOut }, .readyOk, [folder, csv, trc, zipOut])

/-- Expiry of the armed inactivity watchdog: auto-finalize while
`recording` (failures swallowed), auto-`reset()` while `arming`. -/
def watchdogFire (s : RecorderState) (rawStamp : String) (fate : IoResult) :
    RecorderState :=
  if s.watchdogOn then
    let s0 := { s with watchdogOn := false }
    if s0.status = .recording then (finalize s0 rawStamp fate).1
    else if s0.status = .arming then reset s0
    else s0
  else s

/-! ## Operations and reachability -/

/-- One externally triggered operation on the recorder: a raw-frame event,
a sampler tick (carrying the snapshot built from the decoded state at tick
time), a `finalize()` call, the watchdog expiry, or a `reset()` call. -/
inductive Op
  | rawFrame (frame : Option FrameIn)
  | tick (snap : Snapshot)
  | fin (rawStamp : String) (fate : IoResult)
  | watchdog (rawStamp : String) (fate : IoResult)
  | doReset

/-- Apply one operation to the state. -/
def stepOp : Op → RecorderState → RecorderState
  | .rawFrame f, s => onRawFrame s f
  | .tick snap, s => samplerTick s snap
  | .fin rawStamp fate, s => (finalize s rawStamp fate).1
  | .watchdog rawStamp fate, s => watchdogFire s rawStamp fate
  | .doReset, s => reset s

/-- States reachable from the constructed recorder by any sequence of
operations. -/
inductive Reachable : RecorderState → Prop
  | init : Reachable initState
  | step {s : RecorderState} (op : Op) : Reachable s → Reachable (stepOp op s)

/-- The observable surface: status, the stats pair, and the artifact paths. -/
def observable (s : RecorderState) :
    RecorderStatus × (Nat × Nat) ×
      (Option String × Option String × Option String × Option String) :=
  (s.status, getStats s,
    (s.lastFolderPath, s.lastCsvPath, s.lastTrcPath, s.lastZipPath))

/-- The four recorded artifact paths (folder, CSV, TRC, archive). -/
def artifactPaths (s : RecorderState) :
    Option String × Option String × Option String × Option String :=
  (s.lastFolderPath, s.lastCsvPath, s.lastTrcPath, s.lastZipPath)

/-! ## Sample values and formalized claim statements -/

/-- A minimal truthy incoming frame (all fields absent / non-conforming). -/
def frameIn0 : FrameIn :=
  { timeOffsetMs := some 0, id := .other, bytes := none, type := none }

/-- A typical ingested frame: id 1, one data byte `10`, type `"Rx"`. -/
def sampleFrame : RawFrame :=
  normFrame { timeOffsetMs := some 0, id := .num 1, bytes := some [.num 10], type := some "Rx" }

/-- A concrete snapshot (all signals defaulted). -/
def sampleSnap : Snapshot where
  timestamp := "01/01/2026 00:00:00"
  soc := .num 0
  batteryCurrent := .num 0
  minCellVoltage := .num 0
  maxCellVoltage := .num 0
  maxCellTemp := .num 0
  minCellTemp := .num 0
  availableEnergy := .num 0
  driveCurrentLimit := .num 0
  regenCurrentLimit := .num 0
  controllerTemperature := .num 0
  motorTemperature := .num 0
  rmsCurrent := .num 0
  throttle := .num 0
  brake := .num 0
  speed := .num 0
  motorRPM := .num 0
  capacitorVoltage := .num 0
  odometer := .num 0
  controllerFaults := "None"

/-- A recorder busy `recording`, with empty buffers and no notifications yet. -/
def recordingState : RecorderState :=
  { initState with status := .recording, framesSeen := 2, samplerOn := true, watchdogOn := true }

/-- A recorder that has finished an export (`ready`), buffers non-empty. -/
def readyState : RecorderState :=
  { initState with
      status := .ready
      framesSeen := 3
      rawFrames := [sampleFrame]
      snapshots := [sampleSnap] }

/-- Formalization of the claim that after every operation changing the
observable state (status, stats, or artifact paths) the listeners are
notified. -/
def listenersSeeEveryObservableChange : Prop :=
  ∀ (op : Op) (s : RecorderState),
    observable (stepOp op s) ≠ observable s →
    s.notifyCount < (stepOp op s).notifyCount

/-- Formalization of the claim that every entry of an ingested frame's
`bytes` array is canonicalized to a two-character uppercase hex string. -/
def everyByteTwoCharUpperHex : Prop :=
  ∀ (g : FrameIn) (nf : RawFrame), normalizeRawFrame (some g) = some nf →
    ∀ bs, nf.bytes = some bs → ∀ x ∈ bs, isTwoCharUpperHex x = true

/-- The recorder's buffer/status invariant: both buffers within their caps
and the (atomic-step) status never resting at `finalizing`. -/
def recorderInvariant (s : RecorderState) : Prop :=
  s.rawFrames.length ≤ MAX_RAW_FRAMES ∧ s.snapshots.length ≤ MAX_SNAPSHOTS ∧
    s.status ≠ .finalizing

/-! ## Helper lemmas: structure projections -/

theorem pushRaw_status (s : RecorderState) (nf : RawFrame) :
    (pushRaw s nf).status = s.status := by
  unfold pushRaw; split <;> rfl

theorem pushRaw_framesSeen (s : RecorderState) (nf : RawFrame) :
    (pushRaw s nf).framesSeen = s.framesSeen := by
  unfold pushRaw; split <;> rfl

theorem pushRaw_snapshots (s : RecorderState) (nf : RawFrame) :
    (pushRaw s nf).snapshots = s.snapshots := by
  unfold pushRaw; split <;> rfl

theorem pushRaw_notifyCount (s : RecorderState) (nf : RawFrame) :
    (pushRaw s nf).notifyCount = s.notifyCount := by
  unfold pushRaw; split <;> rfl

theorem pushRaw_rawFrames_length (s : RecorderState) (nf : RawFrame) :
    (pushRaw s nf).rawFrames.length ≤ max s.rawFrames.length MAX_RAW_FRAMES := by
  unfold pushRaw
  split
  · simp; omega
  · simp

/-- The frame-seen counter goes up by exactly one on every
truthy frame, whatever branch runs. -/
theorem onRawFrame_some_framesSeen (s : RecorderState) (g : FrameIn) :
    (onRawFrame s (some g)).framesSeen = s.framesSeen + 1 := by
  unfold onRawFrame normalizeRawFrame
  simp only [notifyS, armInactivityTimeout, startSampler]
  split_ifs <;> simp [pushRaw_framesSeen]

theorem onRawFrame_idle (s : RecorderState) (g : FrameIn) (h : s.status = .idle) :
    (onRawFrame s (some g)).status = .arming := by
  unfold onRawFrame normalizeRawFrame
  simp only [notifyS, armInactivityTimeout, startSampler]
  split_ifs with h1 h2 h3 <;> simp_all [pushRaw_status]

theorem onRawFrame_arming (s : RecorderState) (g : FrameIn) (h : s.status = .arming)
    (hn : 1 ≤ s.framesSeen) :
    (onRawFrame s (some g)).status = .recording := by
  unfold onRawFrame normalizeRawFrame
  simp only [notifyS, armInactivityTimeout, startSampler]
  split_ifs with h1 h2 h3 <;> simp_all [pushRaw_status, pushRaw_framesSeen]

theorem onRawFrame_terminal (s : RecorderState) (g : FrameIn)
    (h : s.status = .ready ∨ s.status = .error ∨ s.status = .finalizing) :
    (onRawFrame s (some g)).status = s.status ∧
    (onRawFrame s (some g)).notifyCount = s.notifyCount := by
  unfold onRawFrame normalizeRawFrame
  simp only [notifyS, armInactivityTimeout, startSampler]
  split_ifs with h1 h2 h3 <;>
    rcases h with h | h | h <;> simp_all [pushRaw_status, pushRaw_notifyCount]

theorem onRawFrame_rawFrames_push (s : RecorderState) (g : FrameIn)
    (hlt : s.rawFrames.length < MAX_RAW_FRAMES) :
    (onRawFrame s (some g)).rawFrames = s.rawFrames ++ [normFrame g] := by
  unfold onRawFrame normalizeRawFrame pushRaw
  simp only [notifyS, armInactivityTimeout, startSampler]
  split_ifs with h1 h2 h3 <;> simp_all

theorem onRawFrame_snapshots (s : RecorderState) (f : Option FrameIn) :
    (onRawFrame s f).snapshots = s.snapshots := by
  cases f with
  | none => rfl
  | some g =>
    unfold onRawFrame normalizeRawFrame
    simp only [notifyS, armInactivityTimeout, startSampler]
    split_ifs <;> simp [pushRaw_snapshots]

theorem onRawFrame_rawFrames_eq_pushRaw (s : RecorderState) (g : FrameIn) :
    (onRawFrame s (some g)).rawFrames = (pushRaw s (normFrame g)).rawFrames := by
  unfold onRawFrame normalizeRawFrame
  simp only [notifyS, armInactivityTimeout, startSampler]
  split_ifs <;> rfl

theorem onRawFrame_status_ne_finalizing (s : RecorderState) (f : Option FrameIn)
    (h : s.status ≠ .finalizing) : (onRawFrame s f).status ≠ .finalizing := by
  cases f with
  | none => exact h
  | some g =>
    unfold onRawFrame normalizeRawFrame
    simp only [notifyS, armInactivityTimeout, startSampler]
    split_ifs <;> simp_all [pushRaw_status]

theorem samplerTick_rawFrames (s : RecorderState) (snap : Snapshot) :
    (samplerTick s snap).rawFrames = s.rawFrames := by
  unfold samplerTick notifyS
  split_ifs <;> rfl

theorem samplerTick_status (s : RecorderState) (snap : Snapshot) :
    (samplerTick s snap).status = s.status := by
  unfold samplerTick notifyS
  split_ifs <;> rfl

theorem samplerTick_snapshots_length (s : RecorderState) (snap : Snapshot) :
    (samplerTick s snap).snapshots.length ≤ max s.snapshots.length MAX_SNAPSHOTS := by
  unfold samplerTick notifyS
  split_ifs with h1 h2
  · simp
    omega
  · simp
  · simp

theorem finalize_buffers (s : RecorderState) (rawStamp : String) (fate : IoResult) :
    (finalize s rawStamp fate).1.rawFrames = s.rawFrames ∧
    (finalize s rawStamp fate).1.snapshots = s.snapshots := by
  simp only [finalize, stopSampler, notifyS]
  cases fate <;> split_ifs <;> simp_all

theorem finalize_status_cases (s : RecorderState) (rawStamp : String) (fate : IoResult)
    (h : s.status ≠ .finalizing) :
    (finalize s rawStamp fate).1.status = .idle ∨
    (finalize s rawStamp fate).1.status = .ready ∨
    (finalize s rawStamp fate).1.status = .error := by
  simp only [finalize, stopSampler, notifyS]
  cases fate <;> split_ifs <;> simp_all

theorem stepOp_preserves_invariant (op : Op) (s : RecorderState)
    (h : recorderInvariant s) : recorderInvariant (stepOp op s) := by
  obtain ⟨hraw, hsnap, hfin⟩ := h
  cases op with
  | rawFrame f =>
    simp only [stepOp]
    refine ⟨?_, ?_, onRawFrame_status_ne_finalizing s f hfin⟩
    · cases f with
      | none => exact hraw
      | some g =>
        rw [onRawFrame_rawFrames_eq_pushRaw]
        have := pushRaw_rawFrames_length s (normFrame g)
        omega
    · rw [onRawFrame_snapshots]; exact hsnap
  | tick snap =>
    simp only [stepOp]
    have hlen := samplerTick_snapshots_length s snap
    refine ⟨?_, by omega, ?_⟩
    · rw [samplerTick_rawFrames]; exact hraw
    · rw [samplerTick_status]; exact hfin
  | fin rawStamp fate =>
    simp only [stepOp]
    have hb := finalize_buffers s rawStamp fate
    have hs := finalize_status_cases s rawStamp fate hfin
    refine ⟨?_, ?_, ?_⟩
    · rw [hb.1]; exact hraw
    · rw [hb.2]; exact hsnap
    · rcases hs with hs | hs | hs <;> simp [hs]
  | watchdog rawStamp fate =>
    simp only [stepOp, watchdogFire]
    split_ifs with h1 h2 h3
    · have hb := finalize_buffers { s with watchdogOn := false } rawStamp fate
      have hs := finalize_status_cases { s with watchdogOn := false } rawStamp fate hfin
      refine ⟨?_, ?_, ?_⟩
      · rw [hb.1]; exact hraw
      · rw [hb.2]; exact hsnap
      · rcases hs with hs | hs | hs <;> simp [hs]
    · exact ⟨by simp [reset, notifyS], by simp [reset, notifyS], by simp [reset, notifyS]⟩
    · exact ⟨hraw, hsnap, hfin⟩
    · exact ⟨hraw, hsnap, hfin⟩
  | doReset =>
    exact ⟨by simp [stepOp, reset, notifyS], by simp [stepOp, reset, notifyS],
      by simp [stepOp, reset, notifyS]⟩

theorem reachable_invariant (s : RecorderState) (h : Reachable s) :
    recorderInvariant s := by
  induction h with
  | init => exact ⟨by simp [initState], by simp [initState], by simp [initState]⟩
  | step op _ ih => exact stepOp_preserves_invariant op _ ih

/-! ## Claim C2 -/

/-- C2: in every reachable recorder state — hence after every sequence of
`onRawFrame` calls, sampler ticks, `finalize()` calls, watchdog expiries
and `reset()` calls — the raw-frame buffer holds at most 500,000 entries
and the snapshot buffer at most 100,000. -/
theorem buffers_never_exceed_caps (s : RecorderState) (h : Reachable s) :
    s.rawFrames.length ≤ 500000 ∧ s.snapshots.length ≤ 100000 :=
  ⟨(reachable_invariant s h).1, (reachable_invariant s h).2.1⟩

/-- Witness for C2: the state reached after one raw frame is reachable and
satisfies both bounds. -/
theorem buffers_never_exceed_caps_witness :
    (stepOp (.rawFrame (some frameIn0)) initState).rawFrames.length ≤ 500000 ∧
    (stepOp (.rawFrame (some frameIn0)) initState).snapshots.length ≤ 100000 :=
  buffers_never_exceed_caps _ (Reachable.step _ Reachable.init)

/-! ## Claim C1 -/

/-- C1: starting from `idle`, the first truthy raw frame always moves the
status to `arming`, and the immediately following truthy raw frame always
moves it on to `recording` (driven by the frame count reaching 2 — after
two increments `framesSeen` is at least 2 whatever it started at — not by
the content of either frame). -/
theorem first_frame_arms_second_frame_records (s : RecorderState) (g1 g2 : FrameIn)
    (h : s.status = .idle) :
    (onRawFrame s (some g1)).status = .arming ∧
    (onRawFrame (onRawFrame s (some g1)) (some g2)).status = .recording := by
  have h1 := onRawFrame_idle s g1 h
  refine ⟨h1, onRawFrame_arming _ g2 h1 ?_⟩
  rw [onRawFrame_some_framesSeen]
  omega

/-- Witness for C1: the freshly constructed recorder is `idle`; feeding two
minimal frames lands in `arming` then `recording`. -/
theorem first_frame_arms_second_frame_records_witness :
    initState.status = .idle ∧
    ((onRawFrame initState (some frameIn0)).status = .arming ∧
      (onRawFrame (onRawFrame initState (some frameIn0)) (some frameIn0)).status = .recording) :=
  ⟨rfl, first_frame_arms_second_frame_records initState frameIn0 frameIn0 rfl⟩

/-! ## Claim C6 -/

/-- C6: every call to `onRawFrame` with a truthy frame increments
`framesSeen` by exactly one — in every status and at every buffer fill
level (the state `s` is arbitrary, so this also covers a raw-frame buffer
already at its 500,000-entry cap, where the frame is dropped from storage
but still counted). -/
theorem framesSeen_increments_once_per_truthy_frame (s : RecorderState) (g : FrameIn) :
    (onRawFrame s (some g)).framesSeen = s.framesSeen + 1 :=
  onRawFrame_some_framesSeen s g

/-! ## Claim C10 -/

/-- C10: a truthy raw frame received while the status is `ready`, `error`
or `finalizing` leaves the status unchanged, yet is still counted and (when
the buffer is below its cap) still appended to the raw-frame buffer:
ingestion is not actually suspended in these states. -/
theorem terminal_states_still_ingest (s : RecorderState) (g : FrameIn)
    (h : s.status = .ready ∨ s.status = .error ∨ s.status = .finalizing) :
    (onRawFrame s (some g)).status = s.status ∧
    (onRawFrame s (some g)).framesSeen = s.framesSeen + 1 ∧
    (s.rawFrames.length < 500000 →
      (onRawFrame s (some g)).rawFrames = s.rawFrames ++ [normFrame g]) :=
  ⟨(onRawFrame_terminal s g h).1, onRawFrame_some_framesSeen s g,
    fun hlt => onRawFrame_rawFrames_push s g hlt⟩

/-- Witness for C10: a recorder in `ready` with one stored frame still
ingests the next frame while keeping status `ready`. -/
theorem terminal_states_still_ingest_witness :
    (readyState.status = .ready ∨ readyState.status = .error ∨
      readyState.status = .finalizing) ∧
    readyState.rawFrames.length < 500000 ∧
    (onRawFrame readyState (some frameIn0)).status = readyState.status ∧
    (onRawFrame readyState (some frameIn0)).framesSeen = readyState.framesSeen + 1 ∧
    (onRawFrame readyState (some frameIn0)).rawFrames =
      readyState.rawFrames ++ [normFrame frameIn0] := by
  have h := terminal_states_still_ingest readyState frameIn0 (Or.inl rfl)
  exact ⟨Or.inl rfl, by decide, h.1, h.2.1, h.2.2 (by decide)⟩

/-! ## Claim C3 -/

/-- Counterexample to C3 as stated: while `recording`, a raw frame changes
the observable stats (the raw-frame buffer grows) but `onRawFrame`'s
`recording` branch only re-arms the watchdog and never calls `notify()`,
so no listener is invoked. -/
theorem notify_not_after_every_observable_change : ¬ listenersSeeEveryObservableChange := by
  intro h
  have hx := h (.rawFrame (some frameIn0)) recordingState (by decide)
  exact absurd hx (by decide)

theorem pushRaw_lastFolderPath (s : RecorderState) (nf : RawFrame) :
    (pushRaw s nf).lastFolderPath = s.lastFolderPath := by
  unfold pushRaw; split <;> rfl

theorem pushRaw_lastCsvPath (s : RecorderState) (nf : RawFrame) :
    (pushRaw s nf).lastCsvPath = s.lastCsvPath := by
  unfold pushRaw; split <;> rfl

theorem pushRaw_lastTrcPath (s : RecorderState) (nf : RawFrame) :
    (pushRaw s nf).lastTrcPath = s.lastTrcPath := by
  unfold pushRaw; split <;> rfl

theorem pushRaw_lastZipPath (s : RecorderState) (nf : RawFrame) :
    (pushRaw s nf).lastZipPath = s.lastZipPath := by
  unfold pushRaw; split <;> rfl

/-- C3 amended: every operation that changes the *status or the recorded
artifact paths* invokes the registered listeners (the paths change only in
finalize-success and reset, both of which notify); what fails in the
original claim is only the stats leg — frame ingestion while `recording`,
`ready`, `error` or `finalizing` grows the raw-frame buffer without a
notification. -/
theorem status_or_paths_change_notifies (op : Op) (s : RecorderState)
    (h : (stepOp op s).status ≠ s.status ∨
      artifactPaths (stepOp op s) ≠ artifactPaths s) :
    s.notifyCount < (stepOp op s).notifyCount := by
  cases op with
  | rawFrame f =>
    cases f with
    | none => simp [stepOp, onRawFrame, normalizeRawFrame] at h
    | some g =>
      revert h
      simp only [stepOp, artifactPaths]
      unfold onRawFrame normalizeRawFrame
      simp only [notifyS, armInactivityTimeout, startSampler]
      split_ifs <;> intro h <;>
        simp_all [pushRaw_status, pushRaw_notifyCount, pushRaw_lastFolderPath,
          pushRaw_lastCsvPath, pushRaw_lastTrcPath, pushRaw_lastZipPath]
  | tick snap =>
    revert h
    simp only [stepOp, artifactPaths]
    unfold samplerTick notifyS
    split_ifs <;> intro h <;> simp_all
  | fin rawStamp fate =>
    revert h
    simp only [stepOp, artifactPaths, finalize, stopSampler, notifyS]
    cases fate <;> split_ifs <;> intro h <;> simp_all <;> omega
  | watchdog rawStamp fate =>
    revert h
    simp only [stepOp, watchdogFire, artifactPaths]
    split_ifs with h1 h2 h3 <;> intro h
    · simp only [finalize, stopSampler, notifyS]
      cases fate <;> split_ifs <;> simp_all <;> omega
    · simp [reset, notifyS]
    · simp_all
    · simp_all
  | doReset =>
    simp [stepOp, reset, notifyS]

/-- Witness for the amended C3: the first raw frame changes the status
(idle to arming) and the notification counter does increase. -/
theorem status_or_paths_change_notifies_witness :
    ((stepOp (.rawFrame (some frameIn0)) initState).status ≠ initState.status ∨
      artifactPaths (stepOp (.rawFrame (some frameIn0)) initState) ≠
        artifactPaths initState) ∧
    initState.notifyCount < (stepOp (.rawFrame (some frameIn0)) initState).notifyCount :=
  ⟨Or.inl (by decide),
    status_or_paths_change_notifies (.rawFrame (some frameIn0)) initState
      (Or.inl (by decide))⟩

/-! ## Claim C4 -/

/-- C4: in every reachable state with an empty snapshot buffer or an empty
raw-frame buffer, `finalize()` returns the status to `idle`, settles with
the benign `emptyNoFiles` outcome (not a rejection), and creates no files,
folders or archive — whatever the I/O layer would have done. -/
theorem empty_finalize_benign (s : RecorderState) (rawStamp : String) (fate : IoResult)
    (hr : Reachable s) (hempty : s.snapshots = [] ∨ s.rawFrames = []) :
    (finalize s rawStamp fate).1.status = .idle ∧
    (finalize s rawStamp fate).2.1 = .emptyNoFiles ∧
    (finalize s rawStamp fate).2.2 = [] := by
  have hfin := (reachable_invariant s hr).2.2
  simp only [finalize, stopSampler, notifyS]
  cases fate <;> split_ifs <;> simp_all

/-- Witness for C4: finalizing the freshly constructed (empty) recorder is
a benign no-op. -/
theorem empty_finalize_benign_witness :
    (finalize initState "stamp" .ok).1.status = .idle ∧
    (finalize initState "stamp" .ok).2.1 = .emptyNoFiles ∧
    (finalize initState "stamp" .ok).2.2 = [] :=
  empty_finalize_benign initState "stamp" .ok Reachable.init (Or.inl rfl)

/-! ## Claim C5 -/

/-- C5: `finalize()` rejects exactly when it actually ran the export (not
the idempotent-guard no-op, buffers non-empty) and some I/O step failed;
the final status is `error` exactly when it rejected; and on a successful
export the status becomes `ready` and the four artifact paths (folder,
CSV, TRC, archive) are recorded. -/
theorem finalize_rejects_iff_io_fails (s : RecorderState) (rawStamp : String)
    (fate : IoResult) :
    ((finalize s rawStamp fate).2.1 = .rejected ↔
      (s.status ≠ .finalizing ∧ s.snapshots ≠ [] ∧ s.rawFrames ≠ [] ∧ fate ≠ .ok)) ∧
    ((finalize s rawStamp fate).1.status = .error ↔
      (finalize s rawStamp fate).2.1 = .rejected) ∧
    ((s.status ≠ .finalizing ∧ s.snapshots ≠ [] ∧ s.rawFrames ≠ [] ∧ fate = .ok) →
      ((finalize s rawStamp fate).1.status = .ready ∧
        (finalize s rawStamp fate).1.lastFolderPath =
          some (CachesDirectoryPath ++ "/export_" ++ sanitizeStamp rawStamp) ∧
        (finalize s rawStamp fate).1.lastCsvPath =
          some (CachesDirectoryPath ++ "/export_" ++ sanitizeStamp rawStamp ++ "/data.csv") ∧
        (finalize s rawStamp fate).1.lastTrcPath =
          some (CachesDirectoryPath ++ "/export_" ++ sanitizeStamp rawStamp ++ "/data.trc") ∧
        (finalize s rawStamp fate).1.lastZipPath =
          some (CachesDirectoryPath ++ "/export_" ++ sanitizeStamp rawStamp ++ ".zip"))) := by
  simp only [finalize, stopSampler, notifyS]
  cases fate <;> split_ifs <;> simp_all <;> tauto

/-- Witness for C5: a failing archive step on a recorder with non-empty
buffers yields a rejection and the `error` status. -/
theorem finalize_rejects_iff_io_fails_witness :
    (finalize readyState "stamp" .failZip).2.1 = .rejected ∧
    (finalize readyState "stamp" .failZip).1.status = .error := by
  have h := finalize_rejects_iff_io_fails readyState "stamp" .failZip
  have hrej := h.1.mpr ⟨by decide, by decide, by decide, by decide⟩
  exact ⟨hrej, h.2.1.mpr hrej⟩

/-! ## Helper lemmas: digit rendering and parsing -/

theorem isUpperHexChar_digitChar : ∀ d, d < 16 → isUpperHexChar (digitChar d) = true := by
  decide

theorem toHexCoreAux_all_hex (fuel : Nat) :
    ∀ n acc, (∀ c ∈ acc, isUpperHexChar c = true) →
      ∀ c ∈ toHexCoreAux fuel n acc, isUpperHexChar c = true := by
  induction fuel with
  | zero => intro n acc hacc; exact hacc
  | succ fuel ih =>
    intro n acc hacc
    unfold toHexCoreAux
    split_ifs with h16
    · intro c hc
      rcases List.mem_cons.mp hc with rfl | hc
      · exact isUpperHexChar_digitChar n h16
      · exact hacc c hc
    · refine ih (n / 16) _ ?_
      intro c hc
      rcases List.mem_cons.mp hc with rfl | hc
      · exact isUpperHexChar_digitChar (n % 16) (by omega)
      · exact hacc c hc

theorem toHexCoreAux_length_le (fuel : Nat) :
    ∀ n acc j, n < fuel → n < 16 ^ j → 1 ≤ j →
      (toHexCoreAux fuel n acc).length ≤ j + acc.length := by
  induction fuel with
  | zero => intro n acc j h; omega
  | succ fuel ih =>
    intro n acc j h hj h1
    unfold toHexCoreAux
    split_ifs with h16
    · simp; omega
    · have hj2 : 2 ≤ j := by
        by_contra hlt
        interval_cases j
        omega
      have hdiv : n / 16 < 16 ^ (j - 1) := by
        have : 16 ^ j = 16 ^ (j - 1) * 16 := by
          conv_lhs => rw [show j = (j - 1) + 1 by omega]
          rw [pow_succ]
        omega
      have := ih (n / 16) (digitChar (n % 16) :: acc) (j - 1) (by omega) hdiv (by omega)
      simp at this
      omega

theorem toHexCore_length_le (n j : Nat) (hj : n < 16 ^ j) (h1 : 1 ≤ j) :
    (toHexCore n).length ≤ j := by
  have := toHexCoreAux_length_le (n + 1) n [] j (by omega) hj h1
  simpa [toHexCore] using this


theorem string_data_append (a b : String) : (a ++ b).data = a.data ++ b.data := rfl

theorem string_length_data (s : String) : s.length = s.data.length := rfl

theorem jsPadStart_data (s : String) (n : Nat) (c : Char) :
    (jsPadStart s n c).data = List.replicate (n - s.length) c ++ s.data := rfl

theorem jsPadStart_length (s : String) (n : Nat) (c : Char) :
    (jsPadStart s n c).length = max n s.length := by
  show (List.replicate (n - s.length) c ++ s.data).length = max n s.length
  rw [List.length_append, List.length_replicate]
  show n - s.length + s.length = max n s.length
  omega

theorem normalizeByte_num_twoCharHex (n : Nat) (h : n < 256) :
    isTwoCharUpperHex (normalizeByte (.num n)) = true := by
  have hlen : (toHexCore n).length ≤ 2 := toHexCore_length_le n 2 (by omega) (by omega)
  have hall : ∀ c ∈ toHexCore n, isUpperHexChar c = true :=
    toHexCoreAux_all_hex (n + 1) n [] (by simp)
  simp only [normalizeByte, isTwoCharUpperHex, decide_eq_true_eq]
  refine ⟨?_, ?_⟩
  · rw [jsPadStart_length]
    have : (toHexUpper n).length = (toHexCore n).length := rfl
    omega
  · rw [List.all_eq_true]
    intro c hc
    rw [jsPadStart_data] at hc
    rcases List.mem_append.mp hc with hc | hc
    · have : c = '0' := List.eq_of_mem_replicate hc
      subst this
      decide
    · exact hall c hc

theorem bytes_not_always_two_char_hex : ¬ everyByteTwoCharUpperHex := by
  intro h
  have hx := h { timeOffsetMs := some 0, id := .other, bytes := some [.num 256, .str "XYZ"], type := none }
    (normFrame { timeOffsetMs := some 0, id := .other, bytes := some [.num 256, .str "XYZ"], type := none })
    rfl ["100", "XYZ"] (by decide) "100" (by decide)
  exact absurd hx (by decide)

theorem toHexCoreAux_length_ge (fuel : Nat) :
    ∀ n acc j, n < fuel → 16 ^ j ≤ n →
      j + 1 + acc.length ≤ (toHexCoreAux fuel n acc).length := by
  induction fuel with
  | zero => intro n acc j h; omega
  | succ fuel ih =>
    intro n acc j h hj
    unfold toHexCoreAux
    split_ifs with h16
    · have hj0 : j = 0 := by
        by_contra hne
        have : 16 ^ 1 ≤ 16 ^ j := Nat.pow_le_pow_right (by omega) (by omega)
        simp at this
        omega
      subst hj0
      simp
      omega
    · rcases Nat.eq_zero_or_pos j with hj0 | hjpos
      · subst hj0
        have hdiv : 16 ^ 0 ≤ n / 16 := by
          simp
          omega
        have := ih (n / 16) (digitChar (n % 16) :: acc) 0 (by omega) hdiv
        simp at this ⊢
        omega
      · have hdiv : 16 ^ (j - 1) ≤ n / 16 := by
          rw [Nat.le_div_iff_mul_le (by omega)]
          calc 16 ^ (j - 1) * 16 = 16 ^ j := by
                rw [← pow_succ]
                congr 1
                omega
            _ ≤ n := hj
        have := ih (n / 16) (digitChar (n % 16) :: acc) (j - 1) (by omega) hdiv
        simp at this ⊢
        omega

theorem toHexCore_length_ge_three (n : Nat) (h : 256 ≤ n) : 3 ≤ (toHexCore n).length := by
  have := toHexCoreAux_length_ge (n + 1) n [] 2 (by omega) (by norm_num; omega)
  simpa [toHexCore] using this

theorem big_byte_renders_three_hex_digits (n : Nat) (h : 256 ≤ n) :
    3 ≤ (normalizeByte (.num n)).length := by
  have hlen := toHexCore_length_ge_three n h
  simp only [normalizeByte]
  rw [jsPadStart_length]
  have : (toHexUpper n).length = (toHexCore n).length := rfl
  omega

/-- C7 amended: every entry of the ingested `bytes` array goes through
`normalizeByte`; a numeric entry below 256 becomes exactly two uppercase
hex characters; a numeric entry of 256 or more renders with at least three
hex digits; a non-number non-string entry becomes `"00"`; a string entry
is uppercased and zero-left-padded to length at least 2, with no hex
validation. -/
theorem bytes_canonicalized_amended (g : FrameIn) (n m : Nat) (s : String)
    (hn : n < 256) (hm : 256 ≤ m) :
    (normFrame g).bytes = some ((g.bytes.getD []).map normalizeByte) ∧
    isTwoCharUpperHex (normalizeByte (.num n)) = true ∧
    3 ≤ (normalizeByte (.num m)).length ∧
    normalizeByte .other = "00" ∧
    normalizeByte (.str s) = jsPadStart (jsToUpper s) 2 '0' ∧
    2 ≤ (normalizeByte (.str s)).length := by
  refine ⟨?_, normalizeByte_num_twoCharHex n hn,
    big_byte_renders_three_hex_digits m hm, rfl, rfl, ?_⟩
  · cases hb : g.bytes <;> simp [normFrame, hb]
  · simp only [normalizeByte]
    rw [jsPadStart_length]
    omega

/-- Witness for the amended C7 at bytes 10, 256 and the string "a". -/
theorem bytes_canonicalized_amended_witness :
    (normFrame frameIn0).bytes = some [] ∧
    isTwoCharUpperHex (normalizeByte (.num 10)) = true ∧
    3 ≤ (normalizeByte (.num 256)).length ∧
    normalizeByte .other = "00" ∧
    normalizeByte (.str "a") = jsPadStart (jsToUpper "a") 2 '0' ∧
    2 ≤ (normalizeByte (.str "a")).length :=
  bytes_canonicalized_amended frameIn0 10 256 "a" (by decide) (by decide)


/-! ## Claim C8 -/

/-- C9: three concrete ingestion-plus-serialization facts. A byte given as
the number `10` is stored as `"0A"` and appears as `0A` in the trace line;
a frame ingested with no `id` field serializes its identifier column as
`00000000`; a frame ingested with `bytes: []` has DLC `String(0) = "0"`
left-padded to width 2, i.e. `" 0"`, in its trace line. -/
theorem trace_byte_id_dlc_formatting :
    (normFrame ⟨some 0, .num 1, some [.num 10], some "Rx"⟩).bytes = some ["0A"] ∧
    trcLine 0 (normFrame ⟨some 0, .num 1, some [.num 10], some "Rx"⟩) =
      "1)      0.000  Rx  00000001  1 0A                     " ∧
    (normFrame ⟨some 0, .other, some [.num 10], some "Rx"⟩).id = some "00000000" ∧
    trcLine 0 (normFrame ⟨some 0, .other, some [.num 10], some "Rx"⟩) =
      "1)      0.000  Rx  00000000  1 0A                     " ∧
    decStr 0 = "0" ∧
    jsPadStart (decStr 0) 2 ' ' = " 0" ∧
    trcLine 0 (normFrame ⟨some 0, .num 1, some [], some "Rx"⟩) =
      "1)      0.000  Rx  00000001  0                        " := by
  refine ⟨rfl, rfl, rfl, rfl, rfl, rfl, rfl⟩

end VehicleDataRecorder
